import Mathlib

/-!
Shallow embedding of `src/Core/Src/button.c` (button_lib for STM32).

Modelling conventions:
* `GPIO_PinState` is a `Bool`: `true` = `GPIO_PIN_SET` (released),
  `false` = `GPIO_PIN_RESET` (pressed).
* `HAL_GetTick()` is passed in as the parameter `now`; within one handler
  call the millisecond tick is read as one value.
* `HAL_GPIO_ReadPin` is passed in as the parameter `raw` (the instantaneous
  raw pin level during the call).
* All `uint32_t` timestamp arithmetic is `Nat` arithmetic modulo `2 ^ 32`
  (`wadd` / `wsub` below).
* The per-button fields of `struct Button` that the logic touches form
  `ButtonState`; the function-local `static` variables of
  `Button_IRQ_Handler` (`ignore_until`, `press_start_time`,
  `last_press_time`), which are process-wide and shared by all buttons,
  form `HandlerState`.
* The module-level debug globals (`debug_count`, `is_button_pressed`,
  `button_has_changed`, `is_state_changed`) are write-only diagnostics with
  no reader in the library; they are not modelled.
-/

/-- `#define DEBOUNCE_DURATION (uint16_t)200` from button.h. -/
def DEBOUNCE_DURATION : Nat := 200

/-- `#define LONG_PRESS_DURATION (uint16_t)1000` from button.h. -/
def LONG_PRESS_DURATION : Nat := 1000

/-- `#define DOUBLE_PRESS_WINDOW (uint16_t)500` from button.h. -/
def DOUBLE_PRESS_WINDOW : Nat := 500

/-- Modulus of `uint32_t` arithmetic. -/
def U32_MOD : Nat := 2 ^ 32

/-- `uint32_t` addition (wrapping). -/
def wadd (a b : Nat) : Nat := (a + b) % U32_MOD

/-- `uint32_t` subtraction (wrapping): `(a - b) mod 2^32`. -/
def wsub (a b : Nat) : Nat := (a % U32_MOD + (U32_MOD - b % U32_MOD)) % U32_MOD

/-- The per-button fields of `struct Button` that the event logic reads or
writes (`GPIO_Port`, `_pin` and the unused `_delay` only identify the pin
and are irrelevant to the state machine). -/
structure ButtonState where
  _state : Bool
  _has_changed : Bool
  _long_press_event : Bool
  _double_press_event : Bool
  deriving DecidableEq, Repr

/-- The function-local `static` variables of `Button_IRQ_Handler`:
one process-wide copy, shared by every button that goes through the
handler. -/
structure HandlerState where
  ignore_until : Nat
  press_start_time : Nat
  last_press_time : Nat
  deriving DecidableEq, Repr

/-- `Button_Init`: `_state = GPIO_PIN_SET`, all flags cleared. -/
def Button_Init : ButtonState :=
  { _state := true, _has_changed := false,
    _long_press_event := false, _double_press_event := false }

/-- Initial values of the `static` variables (zero-initialised). -/
def HandlerState.init : HandlerState :=
  { ignore_until := 0, press_start_time := 0, last_press_time := 0 }

/-- `Button_IRQ_Handler` from button.c, lines 51–96.  `now` is the value
read by `HAL_GetTick()`, `raw` the level read by `HAL_GPIO_ReadPin`.
Returns the updated shared static state and the updated button. -/
def Button_IRQ_Handler (g : HandlerState) (b : ButtonState) (now : Nat)
    (raw : Bool) : HandlerState × ButtonState :=
  if g.ignore_until > now then
    -- Ignore any changes during this period
    (g, b)
  else
    let current_state := raw
    if current_state ≠ b._state then
      let b := { b with _state := current_state, _has_changed := true }
      let g := { g with ignore_until := wadd now DEBOUNCE_DURATION }
      if current_state = true then
        -- Button released
        let press_duration := wsub now g.press_start_time
        let gb :=
          if press_duration ≥ LONG_PRESS_DURATION then
            ({ g with press_start_time := 0 },
             { b with _long_press_event := true })
          else (g, b)
        if press_duration < DOUBLE_PRESS_WINDOW then
          -- Check for double press
          let time_since_last_press :=
            wsub gb.1.press_start_time gb.1.last_press_time
          let b2 :=
            if time_since_last_press < DOUBLE_PRESS_WINDOW then
              { gb.2 with _double_press_event := true }
            else gb.2
          ({ gb.1 with last_press_time := gb.1.press_start_time }, b2)
        else gb
      else
        -- Button pressed
        ({ g with press_start_time := now }, b)
    else
      (g, b)

/-- `Button_Read`: returns `HAL_GPIO_ReadPin(button->GPIO_Port, button->_pin)`,
i.e. the instantaneous raw level. -/
def Button_Read (_b : ButtonState) (raw : Bool) : Bool := raw

/-- `Button_Has_Changed`: reads and clears `_has_changed`. -/
def Button_Has_Changed (b : ButtonState) : Bool × ButtonState :=
  if b._has_changed then (true, { b with _has_changed := false })
  else (false, b)

/-- `Button_Pressed`: runs the IRQ handler, consumes `_has_changed`, and
returns changed AND currently-pressed (`Button_Read == GPIO_PIN_RESET`). -/
def Button_Pressed (g : HandlerState) (b : ButtonState) (now : Nat)
    (raw : Bool) : Bool × HandlerState × ButtonState :=
  let gb := Button_IRQ_Handler g b now raw
  let cb := Button_Has_Changed gb.2
  let is_button_pressed := Button_Read cb.2 raw = false
  (cb.1 && is_button_pressed, gb.1, cb.2)

/-- `Button_Long_Pressed`: runs the IRQ handler, then consumes
`_long_press_event`. -/
def Button_Long_Pressed (g : HandlerState) (b : ButtonState) (now : Nat)
    (raw : Bool) : Bool × HandlerState × ButtonState :=
  let gb := Button_IRQ_Handler g b now raw
  if gb.2._long_press_event then
    (true, gb.1, { gb.2 with _long_press_event := false })
  else
    (false, gb.1, gb.2)

/-- `Button_Double_Pressed`: runs the IRQ handler, then consumes
`_double_press_event`. -/
def Button_Double_Pressed (g : HandlerState) (b : ButtonState) (now : Nat)
    (raw : Bool) : Bool × HandlerState × ButtonState :=
  let gb := Button_IRQ_Handler g b now raw
  if gb.2._double_press_event then
    (true, gb.1, { gb.2 with _double_press_event := false })
  else
    (false, gb.1, gb.2)

/-- Runs the IRQ handler over a list of `(tick, raw level)` events for one
button. -/
def runTrace (g : HandlerState) (b : ButtonState) :
    List (Nat × Bool) → HandlerState × ButtonState
  | [] => (g, b)
  | e :: es =>
    let gb := Button_IRQ_Handler g b e.1 e.2
    runTrace gb.1 gb.2 es

/-- Two buttons sharing the one process-wide `HandlerState`, exactly as in
the C source where the statics are shared across every `Button*` passed to
the handler. -/
structure TwoButtons where
  g : HandlerState
  swa : ButtonState
  swb : ButtonState
  deriving DecidableEq, Repr

/-- One handler invocation on one of the two buttons: `(which, tick, raw)`,
`which = true` selects `swa`. -/
def stepTwo (s : TwoButtons) (ev : Bool × Nat × Bool) : TwoButtons :=
  if ev.1 then
    let gb := Button_IRQ_Handler s.g s.swa ev.2.1 ev.2.2
    { s with g := gb.1, swa := gb.2 }
  else
    let gb := Button_IRQ_Handler s.g s.swb ev.2.1 ev.2.2
    { s with g := gb.1, swb := gb.2 }

/-- Runs a sequence of handler invocations over the two-button system. -/
def runTwo (s : TwoButtons) (evs : List (Bool × Nat × Bool)) : TwoButtons :=
  evs.foldl stepTwo s

/-- Initial two-button system: both buttons fresh, statics zero. -/
def twoInit : TwoButtons :=
  { g := HandlerState.init, swa := Button_Init, swb := Button_Init }

/-! ### Arithmetic helper lemmas -/

theorem wadd_eq_of_lt (a b : Nat) (h : a + b < U32_MOD) : wadd a b = a + b :=
  Nat.mod_eq_of_lt h

theorem wsub_eq_of_le (a b : Nat) (hba : b ≤ a) (ha : a < U32_MOD) :
    wsub a b = a - b := by
  have hb : b < U32_MOD := lt_of_le_of_lt hba ha
  unfold wsub
  rw [Nat.mod_eq_of_lt ha, Nat.mod_eq_of_lt hb]
  have h1 : a + (U32_MOD - b) = (a - b) + U32_MOD := by
    have : 0 < U32_MOD := by norm_num [U32_MOD]
    omega
  rw [h1, Nat.add_mod_right, Nat.mod_eq_of_lt (by omega)]

/-! ### Step characterisation lemmas for `Button_IRQ_Handler` -/

/-- Within the suppression window the handler is the identity. -/
theorem irq_suppressed (g : HandlerState) (b : ButtonState) (now : Nat)
    (raw : Bool) (h : g.ignore_until > now) :
    Button_IRQ_Handler g b now raw = (g, b) := by
  simp [Button_IRQ_Handler, h]

/-- Outside the window, an unchanged raw level is a no-op. -/
theorem irq_no_change (g : HandlerState) (b : ButtonState) (now : Nat)
    (raw : Bool) (h : ¬ g.ignore_until > now) (he : raw = b._state) :
    Button_IRQ_Handler g b now raw = (g, b) := by
  simp [Button_IRQ_Handler, h, he]

/-- Accepted press transition (released → pressed). -/
theorem irq_press (g : HandlerState) (b : ButtonState) (now : Nat)
    (h : ¬ g.ignore_until > now) (hb : b._state = true) :
    Button_IRQ_Handler g b now false =
      ({ g with
          ignore_until := wadd now DEBOUNCE_DURATION
          press_start_time := now },
       { b with _state := false, _has_changed := true }) := by
  simp [Button_IRQ_Handler, h, hb]

/-- Accepted release transition with short press duration
(`press_duration < DOUBLE_PRESS_WINDOW`). -/
theorem irq_release_short (g : HandlerState) (b : ButtonState) (now : Nat)
    (h : ¬ g.ignore_until > now) (hb : b._state = false)
    (hd : wsub now g.press_start_time < DOUBLE_PRESS_WINDOW) :
    Button_IRQ_Handler g b now true =
      ({ g with
          ignore_until := wadd now DEBOUNCE_DURATION
          last_press_time := g.press_start_time },
       { b with
          _state := true
          _has_changed := true
          _double_press_event := b._double_press_event ||
            decide (wsub g.press_start_time g.last_press_time <
              DOUBLE_PRESS_WINDOW) }) := by
  have hl : ¬ wsub now g.press_start_time ≥ LONG_PRESS_DURATION := by
    unfold DOUBLE_PRESS_WINDOW at hd; unfold LONG_PRESS_DURATION; omega
  by_cases hdp : wsub g.press_start_time g.last_press_time <
      DOUBLE_PRESS_WINDOW <;>
    simp [Button_IRQ_Handler, h, hb, hd, hl, hdp]

/-- Accepted release transition with long press duration
(`press_duration ≥ LONG_PRESS_DURATION`). -/
theorem irq_release_long (g : HandlerState) (b : ButtonState) (now : Nat)
    (h : ¬ g.ignore_until > now) (hb : b._state = false)
    (hd : wsub now g.press_start_time ≥ LONG_PRESS_DURATION) :
    Button_IRQ_Handler g b now true =
      ({ g with
          ignore_until := wadd now DEBOUNCE_DURATION
          press_start_time := 0 },
       { b with
          _state := true
          _has_changed := true
          _long_press_event := true }) := by
  have hnd : ¬ wsub now g.press_start_time < DOUBLE_PRESS_WINDOW := by
    unfold DOUBLE_PRESS_WINDOW; unfold LONG_PRESS_DURATION at hd; omega
  simp [Button_IRQ_Handler, h, hb, hd, hnd]

/-- Accepted release transition with middle press duration
(neither long nor double-candidate). -/
theorem irq_release_mid (g : HandlerState) (b : ButtonState) (now : Nat)
    (h : ¬ g.ignore_until > now) (hb : b._state = false)
    (hd1 : ¬ wsub now g.press_start_time ≥ LONG_PRESS_DURATION)
    (hd2 : ¬ wsub now g.press_start_time < DOUBLE_PRESS_WINDOW) :
    Button_IRQ_Handler g b now true =
      ({ g with ignore_until := wadd now DEBOUNCE_DURATION },
       { b with _state := true, _has_changed := true }) := by
  simp [Button_IRQ_Handler, h, hb, hd1, hd2]

/-- Any accepted raw-level change (outside the window, level differs from
`_state`) stores the new level, raises `_has_changed`, and re-arms the
suppression deadline to `now + DEBOUNCE_DURATION` (mod 2^32). -/
theorem irq_accept_basic (g : HandlerState) (b : ButtonState) (now : Nat)
    (raw : Bool) (h : ¬ g.ignore_until > now) (hch : raw ≠ b._state) :
    (Button_IRQ_Handler g b now raw).1.ignore_until =
      wadd now DEBOUNCE_DURATION ∧
    (Button_IRQ_Handler g b now raw).2._state = raw ∧
    (Button_IRQ_Handler g b now raw).2._has_changed = true := by
  simp only [Button_IRQ_Handler, if_neg h, if_pos hch]
  split_ifs <;> simp

/-- C1: a call whose tick is still inside the suppression window opened by
the previous accepted transition is a complete no-op (shared statics and
button fields all unchanged); in particular a further raw-level change
strictly within `DEBOUNCE_DURATION` of an accepted transition does not
alter `_state`. -/
theorem c1_suppression_noop
    (g g0 : HandlerState) (b b0 : ButtonState) (now t t2 : Nat)
    (raw raw0 raw2 : Bool)
    (hsup : g.ignore_until > now)
    (hacc : ¬ g0.ignore_until > t) (hch : raw0 ≠ b0._state)
    (hnw : t + DEBOUNCE_DURATION < U32_MOD)
    (ht2 : t2 < t + DEBOUNCE_DURATION) :
    Button_IRQ_Handler g b now raw = (g, b) ∧
    (Button_IRQ_Handler (Button_IRQ_Handler g0 b0 t raw0).1
        (Button_IRQ_Handler g0 b0 t raw0).2 t2 raw2).2._state =
      (Button_IRQ_Handler g0 b0 t raw0).2._state := by
  refine ⟨irq_suppressed g b now raw hsup, ?_⟩
  have hiu : (Button_IRQ_Handler g0 b0 t raw0).1.ignore_until =
      t + DEBOUNCE_DURATION := by
    rw [(irq_accept_basic g0 b0 t raw0 hacc hch).1, wadd_eq_of_lt _ _ hnw]
  have hsup2 : (Button_IRQ_Handler g0 b0 t raw0).1.ignore_until > t2 := by
    omega
  rw [irq_suppressed _ _ _ _ hsup2]

/-- C2: outside the suppression window, a differing raw level is accepted
(`_state := raw`, `_has_changed := true`, new window of exactly
`DEBOUNCE_DURATION` opened at `now`), and an unchanged raw level is a
no-op. -/
theorem c2_accept_or_noop (g : HandlerState) (b : ButtonState) (now : Nat)
    (raw : Bool) (hsup : ¬ g.ignore_until > now) :
    (raw ≠ b._state →
      (Button_IRQ_Handler g b now raw).2._state = raw ∧
      (Button_IRQ_Handler g b now raw).2._has_changed = true ∧
      (Button_IRQ_Handler g b now raw).1.ignore_until =
        wadd now DEBOUNCE_DURATION) ∧
    (raw = b._state → Button_IRQ_Handler g b now raw = (g, b)) := by
  constructor
  · intro hch
    obtain ⟨h1, h2, h3⟩ := irq_accept_basic g b now raw hsup hch
    exact ⟨h2, h3, h1⟩
  · intro he
    exact irq_no_change g b now raw hsup he

/-- C6: `Button_Pressed` first re-runs the IRQ handler, returns
"settled change since last consumption AND raw level currently at the
pressed level (`GPIO_PIN_RESET`)", and always clears `_has_changed`. -/
theorem c6_button_pressed_characterisation (g : HandlerState)
    (b : ButtonState) (now : Nat) (raw : Bool) :
    Button_Pressed g b now raw =
      ((Button_IRQ_Handler g b now raw).2._has_changed && !raw,
       (Button_IRQ_Handler g b now raw).1,
       { (Button_IRQ_Handler g b now raw).2 with _has_changed := false }) := by
  simp only [Button_Pressed, Button_Has_Changed, Button_Read]
  generalize Button_IRQ_Handler g b now raw = X
  obtain ⟨g1, s, ch, lp, dp⟩ := X
  cases ch <;> cases raw <;> simp

/-- C10: every `Button_Pressed` call leaves `_has_changed` clear — also
when it returns 0 (e.g. whenever the raw level reads released, the return
value is 0 yet the flag is still consumed) — so a later
`Button_Has_Changed` on the resulting button state reports nothing. -/
theorem c10_pressed_always_clears (g : HandlerState) (b : ButtonState)
    (now : Nat) (raw : Bool) :
    (Button_Pressed g b now raw).2.2._has_changed = false ∧
    (Button_Has_Changed (Button_Pressed g b now raw).2.2).1 = false ∧
    (Button_Pressed g b now true).1 = false := by
  refine ⟨?_, ?_, ?_⟩ <;>
    unfold Button_Pressed Button_Has_Changed Button_Read <;>
    cases hc : (Button_IRQ_Handler g b now raw).2._has_changed <;>
    cases hc2 : (Button_IRQ_Handler g b now true).2._has_changed <;>
    simp [hc, hc2]

/-- Witness for C1: a suppressed call at tick 50 with deadline 100 is a
no-op, and after an accepted press at tick 1000 a change at tick 1100
cannot alter `_state`. -/
theorem c1_suppression_noop_witness :
    Button_IRQ_Handler ⟨100, 0, 0⟩ Button_Init 50 false =
      (⟨100, 0, 0⟩, Button_Init) ∧
    (Button_IRQ_Handler
        (Button_IRQ_Handler HandlerState.init Button_Init 1000 false).1
        (Button_IRQ_Handler HandlerState.init Button_Init 1000 false).2
        1100 true).2._state =
      (Button_IRQ_Handler HandlerState.init Button_Init 1000 false).2._state :=
  c1_suppression_noop ⟨100, 0, 0⟩ HandlerState.init Button_Init Button_Init
    50 1000 1100 false false true (by decide) (by decide) (by decide)
    (by decide) (by decide)

/-- Witness for C2: the fresh-state press at tick 1000 is accepted. -/
theorem c2_accept_or_noop_witness :
    (Button_IRQ_Handler HandlerState.init Button_Init 1000 false).2._state =
      false ∧
    (Button_IRQ_Handler HandlerState.init Button_Init 1000
      false).2._has_changed = true ∧
    (Button_IRQ_Handler HandlerState.init Button_Init 1000
      false).1.ignore_until = wadd 1000 DEBOUNCE_DURATION :=
  (c2_accept_or_noop HandlerState.init Button_Init 1000 false
    (by decide)).1 (by decide)

/-- C3: on an accepted pressed→released transition, a press duration
`≥ LONG_PRESS_DURATION` (inclusive) sets `_long_press_event` and resets the
shared press-start marker to the sentinel 0; a shorter duration leaves the
flag and the marker untouched. -/
theorem c3_long_press_boundary (g : HandlerState) (b : ButtonState)
    (now : Nat) (hsup : ¬ g.ignore_until > now) (hst : b._state = false) :
    (wsub now g.press_start_time ≥ LONG_PRESS_DURATION →
      (Button_IRQ_Handler g b now true).2._long_press_event = true ∧
      (Button_IRQ_Handler g b now true).1.press_start_time = 0) ∧
    (wsub now g.press_start_time < LONG_PRESS_DURATION →
      (Button_IRQ_Handler g b now true).2._long_press_event =
        b._long_press_event ∧
      (Button_IRQ_Handler g b now true).1.press_start_time =
        g.press_start_time) := by
  constructor
  · intro hd
    rw [irq_release_long g b now hsup hst hd]
    exact ⟨rfl, rfl⟩
  · intro hd
    by_cases hs : wsub now g.press_start_time < DOUBLE_PRESS_WINDOW
    · rw [irq_release_short g b now hsup hst hs]
      exact ⟨rfl, rfl⟩
    · rw [irq_release_mid g b now hsup hst (by omega) hs]
      exact ⟨rfl, rfl⟩

/-- Witness for C3: with press start 0, release at tick 1000 (held exactly
`LONG_PRESS_DURATION`) sets the flag and resets the marker; release at 999
leaves both alone. -/
theorem c3_long_press_boundary_witness :
    ((Button_IRQ_Handler ⟨0, 0, 0⟩ ⟨false, false, false, false⟩ 1000
        true).2._long_press_event = true ∧
     (Button_IRQ_Handler ⟨0, 0, 0⟩ ⟨false, false, false, false⟩ 1000
        true).1.press_start_time = 0) ∧
    ((Button_IRQ_Handler ⟨0, 0, 0⟩ ⟨false, false, false, false⟩ 999
        true).2._long_press_event = false ∧
     (Button_IRQ_Handler ⟨0, 0, 0⟩ ⟨false, false, false, false⟩ 999
        true).1.press_start_time = 0) :=
  ⟨(c3_long_press_boundary ⟨0, 0, 0⟩ ⟨false, false, false, false⟩ 1000
      (by decide) rfl).1 (by decide),
   (c3_long_press_boundary ⟨0, 0, 0⟩ ⟨false, false, false, false⟩ 999
      (by decide) rfl).2 (by decide)⟩

/-- C4: on an accepted pressed→released transition with press duration
strictly below `DOUBLE_PRESS_WINDOW`, `_double_press_event` becomes set iff
`press_start_time - last_press_time < DOUBLE_PRESS_WINDOW` (start-to-start)
and `last_press_time` is updated to `press_start_time` regardless; with
duration `≥ DOUBLE_PRESS_WINDOW` (the boundary excluded) the release takes
no part in pairing: flag and `last_press_time` untouched. -/
theorem c4_double_press_pairing (g : HandlerState) (b : ButtonState)
    (now : Nat) (hsup : ¬ g.ignore_until > now) (hst : b._state = false)
    (hdp : b._double_press_event = false) :
    (wsub now g.press_start_time < DOUBLE_PRESS_WINDOW →
      ((Button_IRQ_Handler g b now true).2._double_press_event = true ↔
        wsub g.press_start_time g.last_press_time < DOUBLE_PRESS_WINDOW) ∧
      (Button_IRQ_Handler g b now true).1.last_press_time =
        g.press_start_time) ∧
    (¬ wsub now g.press_start_time < DOUBLE_PRESS_WINDOW →
      (Button_IRQ_Handler g b now true).2._double_press_event = false ∧
      (Button_IRQ_Handler g b now true).1.last_press_time =
        g.last_press_time) := by
  constructor
  · intro hd
    rw [irq_release_short g b now hsup hst hd]
    constructor
    · simp [hdp]
    · rfl
  · intro hd
    by_cases hl : wsub now g.press_start_time ≥ LONG_PRESS_DURATION
    · rw [irq_release_long g b now hsup hst hl]
      exact ⟨hdp, rfl⟩
    · rw [irq_release_mid g b now hsup hst hl hd]
      exact ⟨hdp, rfl⟩

/-- Witness for C4: press start 1600, last press 1200; release at 1850
(duration 250) pairs iff `wsub 1600 1200 = 400 < 500` and updates
`last_press_time`; release at 2200 (duration 600, and in particular any
duration of exactly 500 or more) leaves flag and `last_press_time`
untouched. -/
theorem c4_double_press_pairing_witness :
    (((Button_IRQ_Handler ⟨0, 1600, 1200⟩ ⟨false, false, false, false⟩ 1850
        true).2._double_press_event = true ↔
       wsub 1600 1200 < DOUBLE_PRESS_WINDOW) ∧
     (Button_IRQ_Handler ⟨0, 1600, 1200⟩ ⟨false, false, false, false⟩ 1850
        true).1.last_press_time = 1600) ∧
    ((Button_IRQ_Handler ⟨0, 1600, 1200⟩ ⟨false, false, false, false⟩ 2200
        true).2._double_press_event = false ∧
     (Button_IRQ_Handler ⟨0, 1600, 1200⟩ ⟨false, false, false, false⟩ 2200
        true).1.last_press_time = 1200) :=
  ⟨(c4_double_press_pairing ⟨0, 1600, 1200⟩ ⟨false, false, false, false⟩
      1850 (by decide) rfl rfl).1 (by decide),
   (c4_double_press_pairing ⟨0, 1600, 1200⟩ ⟨false, false, false, false⟩
      2200 (by decide) rfl rfl).2 (by decide)⟩

/-- Unfolding lemma: one trace step. -/
theorem runTrace_cons (g : HandlerState) (b : ButtonState) (t : Nat)
    (r : Bool) (es : List (Nat × Bool)) :
    runTrace g b ((t, r) :: es) =
      runTrace (Button_IRQ_Handler g b t r).1
        (Button_IRQ_Handler g b t r).2 es := rfl

/-- Unfolding lemma: empty trace. -/
theorem runTrace_nil (g : HandlerState) (b : ButtonState) :
    runTrace g b [] = (g, b) := rfl

/-- C5 counterexample: starting fresh, press 1000→1250 (duration 250 <
`DOUBLE_PRESS_WINDOW`) and press 1600→1850 (duration 250), with
release-to-next-press-start gap `1600 - 1250 = 350 < DOUBLE_PRESS_WINDOW`;
all four transitions are accepted settled transitions, yet
`_double_press_event` is NOT set on the second release, because the code
pairs on start-to-start (`1600 - 1000 = 600 ≥ 500`), not on the
release-to-press gap. -/
theorem c5_counterexample :
    (runTrace HandlerState.init Button_Init [(1000, false)]).2._state =
      false ∧
    (runTrace HandlerState.init Button_Init
      [(1000, false), (1250, true)]).2._state = true ∧
    (runTrace HandlerState.init Button_Init
      [(1000, false), (1250, true), (1600, false)]).2._state = false ∧
    (runTrace HandlerState.init Button_Init
      [(1000, false), (1250, true), (1600, false), (1850, true)]).2._state =
      true ∧
    1250 - 1000 < DOUBLE_PRESS_WINDOW ∧
    1850 - 1600 < DOUBLE_PRESS_WINDOW ∧
    1600 - 1250 < DOUBLE_PRESS_WINDOW ∧
    (runTrace HandlerState.init Button_Init
      [(1000, false), (1250, true), (1600, false),
       (1850, true)]).2._double_press_event = false := by
  decide

/-- C5 (amended): for two consecutively accepted presses `t0→t1` and
`t2→t3`, each of duration `< DOUBLE_PRESS_WINDOW`, starting with no
pending double flag and no qualifying earlier short press,
`_double_press_event` is set on the second release iff the
START-TO-START interval `t2 - t0` (not the release-to-press gap) is
strictly below `DOUBLE_PRESS_WINDOW`; consequently a release-to-press gap
of `DOUBLE_PRESS_WINDOW` or more still yields no flag. -/
theorem c5_amended_start_to_start (g : HandlerState) (b : ButtonState)
    (t0 t1 t2 t3 : Nat)
    (hb : b._state = true) (hdp : b._double_press_event = false)
    (h0 : ¬ g.ignore_until > t0)
    (hlpt : ¬ wsub t0 g.last_press_time < DOUBLE_PRESS_WINDOW)
    (h1 : t0 + DEBOUNCE_DURATION ≤ t1) (hd1 : t1 - t0 < DOUBLE_PRESS_WINDOW)
    (h2 : t1 + DEBOUNCE_DURATION ≤ t2)
    (h3 : t2 + DEBOUNCE_DURATION ≤ t3) (hd2 : t3 - t2 < DOUBLE_PRESS_WINDOW)
    (hwrap : t3 < U32_MOD) :
    ((runTrace g b [(t0, false), (t1, true), (t2, false),
        (t3, true)]).2._double_press_event = true ↔
      t2 - t0 < DOUBLE_PRESS_WINDOW) ∧
    (DOUBLE_PRESS_WINDOW ≤ t2 - t1 →
      (runTrace g b [(t0, false), (t1, true), (t2, false),
        (t3, true)]).2._double_press_event = false) := by
  have hDD : DEBOUNCE_DURATION = 200 := rfl
  have hDW : DOUBLE_PRESS_WINDOW = 500 := rfl
  have w2 : t2 < U32_MOD := by omega
  have w1 : t1 < U32_MOD := by omega
  have ha0 : wadd t0 DEBOUNCE_DURATION = t0 + DEBOUNCE_DURATION :=
    wadd_eq_of_lt _ _ (by omega)
  have ha1 : wadd t1 DEBOUNCE_DURATION = t1 + DEBOUNCE_DURATION :=
    wadd_eq_of_lt _ _ (by omega)
  have ha2 : wadd t2 DEBOUNCE_DURATION = t2 + DEBOUNCE_DURATION :=
    wadd_eq_of_lt _ _ (by omega)
  have hs1 : wsub t1 t0 = t1 - t0 := wsub_eq_of_le t1 t0 (by omega) w1
  have hs3 : wsub t3 t2 = t3 - t2 := wsub_eq_of_le t3 t2 (by omega) hwrap
  have hs2 : wsub t2 t0 = t2 - t0 := wsub_eq_of_le t2 t0 (by omega) w2
  have E1 : runTrace g b [(t0, false), (t1, true), (t2, false), (t3, true)] =
      runTrace ⟨wadd t0 DEBOUNCE_DURATION, t0, g.last_press_time⟩
        ⟨false, true, b._long_press_event, b._double_press_event⟩
        [(t1, true), (t2, false), (t3, true)] := by
    rw [runTrace_cons, irq_press g b t0 h0 hb]
  have hsup1 : ¬ (⟨wadd t0 DEBOUNCE_DURATION, t0, g.last_press_time⟩ :
      HandlerState).ignore_until > t1 := by
    show ¬ wadd t0 DEBOUNCE_DURATION > t1
    rw [ha0]
    omega
  have hd1w : wsub t1 (⟨wadd t0 DEBOUNCE_DURATION, t0, g.last_press_time⟩ :
      HandlerState).press_start_time < DOUBLE_PRESS_WINDOW := by
    show wsub t1 t0 < DOUBLE_PRESS_WINDOW
    rw [hs1]
    omega
  have E2 : runTrace
      (⟨wadd t0 DEBOUNCE_DURATION, t0, g.last_press_time⟩ : HandlerState)
      (⟨false, true, b._long_press_event, b._double_press_event⟩ :
        ButtonState)
      [(t1, true), (t2, false), (t3, true)] =
      runTrace ⟨wadd t1 DEBOUNCE_DURATION, t0, t0⟩
        ⟨true, true, b._long_press_event, false⟩
        [(t2, false), (t3, true)] := by
    rw [runTrace_cons, irq_release_short _ _ t1 hsup1 rfl hd1w]
    simp [hdp, hlpt]
  have hsup2 : ¬ (⟨wadd t1 DEBOUNCE_DURATION, t0, t0⟩ :
      HandlerState).ignore_until > t2 := by
    show ¬ wadd t1 DEBOUNCE_DURATION > t2
    rw [ha1]
    omega
  have E3 : runTrace (⟨wadd t1 DEBOUNCE_DURATION, t0, t0⟩ : HandlerState)
      (⟨true, true, b._long_press_event, false⟩ : ButtonState)
      [(t2, false), (t3, true)] =
      runTrace ⟨wadd t2 DEBOUNCE_DURATION, t2, t0⟩
        ⟨false, true, b._long_press_event, false⟩ [(t3, true)] := by
    rw [runTrace_cons, irq_press _ _ t2 hsup2 rfl]
  have hsup3 : ¬ (⟨wadd t2 DEBOUNCE_DURATION, t2, t0⟩ :
      HandlerState).ignore_until > t3 := by
    show ¬ wadd t2 DEBOUNCE_DURATION > t3
    rw [ha2]
    omega
  have hd2w : wsub t3 (⟨wadd t2 DEBOUNCE_DURATION, t2, t0⟩ :
      HandlerState).press_start_time < DOUBLE_PRESS_WINDOW := by
    show wsub t3 t2 < DOUBLE_PRESS_WINDOW
    rw [hs3]
    omega
  have E4 : runTrace (⟨wadd t2 DEBOUNCE_DURATION, t2, t0⟩ : HandlerState)
      (⟨false, true, b._long_press_event, false⟩ : ButtonState)
      [(t3, true)] =
      (⟨wadd t3 DEBOUNCE_DURATION, t2, t2⟩,
       ⟨true, true, b._long_press_event,
        decide (t2 - t0 < DOUBLE_PRESS_WINDOW)⟩) := by
    rw [runTrace_cons, irq_release_short _ _ t3 hsup3 rfl hd2w,
      runTrace_nil]
    simp [hs2]
  rw [E1, E2, E3, E4]
  constructor
  · simp
  · intro hgap
    have hge : ¬ (t2 - t0 < DOUBLE_PRESS_WINDOW) := by omega
    simp [hge]

/-- Witness for the amended C5: presses 1000→1250 and 1450→1700
(start-to-start 450 < 500) set the flag on the second release. -/
theorem c5_amended_start_to_start_witness :
    ((runTrace HandlerState.init Button_Init
        [(1000, false), (1250, true), (1450, false),
         (1700, true)]).2._double_press_event = true ↔
      1450 - 1000 < DOUBLE_PRESS_WINDOW) ∧
    (DOUBLE_PRESS_WINDOW ≤ 1450 - 1250 →
      (runTrace HandlerState.init Button_Init
        [(1000, false), (1250, true), (1450, false),
         (1700, true)]).2._double_press_event = false) :=
  c5_amended_start_to_start HandlerState.init Button_Init 1000 1250 1450 1700
    (by decide) (by decide) (by decide) (by decide) (by decide) (by decide)
    (by decide) (by decide) (by decide) (by decide)

/-- C9: the timing state is process-wide, not per-button.  With button A's
press accepted at tick 1000 (opening the one shared debounce window),
button B's raw press at tick 1100 is ignored — B stays released with no
change flagged — whereas running the identical B event alone accepts B's
press.  Button A's updates therefore change the debounce outcome observed
on button B. -/
theorem c9_cross_button_interference :
    (runTwo twoInit [(true, 1000, false), (false, 1100, false)]).swb._state =
      true ∧
    (runTwo twoInit
      [(true, 1000, false), (false, 1100, false)]).swb._has_changed =
      false ∧
    (runTwo twoInit [(false, 1100, false)]).swb._state = false ∧
    (runTwo twoInit [(false, 1100, false)]).swb._has_changed = true := by
  decide

/-- The handler is a no-op when the call is suppressed or the raw level
matches the settled level. -/
theorem irq_noop_of (g : HandlerState) (b : ButtonState) (now : Nat)
    (raw : Bool) (h : g.ignore_until > now ∨ raw = b._state) :
    Button_IRQ_Handler g b now raw = (g, b) := by
  by_cases hsup : g.ignore_until > now
  · exact irq_suppressed g b now raw hsup
  · have he : raw = b._state := h.resolve_left hsup
    exact irq_no_change g b now raw hsup he

/-- `Button_Pressed` always leaves `_has_changed` clear. -/
theorem pressed_clears_flag (g : HandlerState) (b : ButtonState) (now : Nat)
    (raw : Bool) : (Button_Pressed g b now raw).2.2._has_changed = false := by
  simp only [Button_Pressed, Button_Has_Changed, Button_Read]
  cases h : (Button_IRQ_Handler g b now raw).2._has_changed <;> simp [h]

/-- `Button_Long_Pressed` always leaves `_long_press_event` clear. -/
theorem long_clears_flag (g : HandlerState) (b : ButtonState) (now : Nat)
    (raw : Bool) :
    (Button_Long_Pressed g b now raw).2.2._long_press_event = false := by
  simp only [Button_Long_Pressed]
  cases h : (Button_IRQ_Handler g b now raw).2._long_press_event <;>
    simp [h]

/-- `Button_Double_Pressed` always leaves `_double_press_event` clear. -/
theorem double_clears_flag (g : HandlerState) (b : ButtonState) (now : Nat)
    (raw : Bool) :
    (Button_Double_Pressed g b now raw).2.2._double_press_event = false := by
  simp only [Button_Double_Pressed]
  cases h : (Button_IRQ_Handler g b now raw).2._double_press_event <;>
    simp [h]

/-- A `Button_Pressed` call on a button whose change flag is already clear
returns 0 when its embedded update registers nothing. -/
theorem pressed_second_false (G : HandlerState) (B : ButtonState)
    (now2 : Nat) (raw2 : Bool) (hB : B._has_changed = false)
    (h : G.ignore_until > now2 ∨ raw2 = B._state) :
    (Button_Pressed G B now2 raw2).1 = false := by
  have hno := irq_noop_of G B now2 raw2 h
  simp only [Button_Pressed, Button_Has_Changed, Button_Read, hno]
  simp [hB]

/-- A `Button_Long_Pressed` call on a button whose long flag is already
clear returns 0 when its embedded update registers nothing. -/
theorem long_second_false (G : HandlerState) (B : ButtonState)
    (now2 : Nat) (raw2 : Bool) (hB : B._long_press_event = false)
    (h : G.ignore_until > now2 ∨ raw2 = B._state) :
    (Button_Long_Pressed G B now2 raw2).1 = false := by
  have hno := irq_noop_of G B now2 raw2 h
  simp only [Button_Long_Pressed, hno]
  simp [hB]

/-- A `Button_Double_Pressed` call on a button whose double flag is
already clear returns 0 when its embedded update registers nothing. -/
theorem double_second_false (G : HandlerState) (B : ButtonState)
    (now2 : Nat) (raw2 : Bool) (hB : B._double_press_event = false)
    (h : G.ignore_until > now2 ∨ raw2 = B._state) :
    (Button_Double_Pressed G B now2 raw2).1 = false := by
  have hno := irq_noop_of G B now2 raw2 h
  simp only [Button_Double_Pressed, hno]
  simp [hB]

/-- C7: the one-shot flag law.  For each accessor, if the second of two
consecutive calls registers no qualifying event — its tick is still inside
the suppression window or its raw level matches the settled level — the
second call returns 0.  So two consecutive accessor calls return
`(true, false)` or `(false, false)`, never `(true, true)`. -/
theorem c7_one_shot_flags (g : HandlerState) (b : ButtonState)
    (now2 : Nat) (now : Nat) (raw raw2 : Bool)
    (hP : (Button_Pressed g b now raw).2.1.ignore_until > now2 ∨
      raw2 = (Button_Pressed g b now raw).2.2._state)
    (hL : (Button_Long_Pressed g b now raw).2.1.ignore_until > now2 ∨
      raw2 = (Button_Long_Pressed g b now raw).2.2._state)
    (hD : (Button_Double_Pressed g b now raw).2.1.ignore_until > now2 ∨
      raw2 = (Button_Double_Pressed g b now raw).2.2._state) :
    (Button_Pressed (Button_Pressed g b now raw).2.1
      (Button_Pressed g b now raw).2.2 now2 raw2).1 = false ∧
    (Button_Long_Pressed (Button_Long_Pressed g b now raw).2.1
      (Button_Long_Pressed g b now raw).2.2 now2 raw2).1 = false ∧
    (Button_Double_Pressed (Button_Double_Pressed g b now raw).2.1
      (Button_Double_Pressed g b now raw).2.2 now2 raw2).1 = false :=
  ⟨pressed_second_false _ _ now2 raw2 (pressed_clears_flag g b now raw) hP,
   long_second_false _ _ now2 raw2 (long_clears_flag g b now raw) hL,
   double_second_false _ _ now2 raw2 (double_clears_flag g b now raw) hD⟩

/-- Witness for C7: button pressed at tick 1000 (first calls consume the
events), second calls at tick 1100 inside the suppression window all
return 0. -/
theorem c7_one_shot_flags_witness :
    (Button_Pressed
      (Button_Pressed HandlerState.init Button_Init 1000 false).2.1
      (Button_Pressed HandlerState.init Button_Init 1000 false).2.2
      1100 false).1 = false ∧
    (Button_Long_Pressed
      (Button_Long_Pressed HandlerState.init Button_Init 1000 false).2.1
      (Button_Long_Pressed HandlerState.init Button_Init 1000 false).2.2
      1100 false).1 = false ∧
    (Button_Double_Pressed
      (Button_Double_Pressed HandlerState.init Button_Init 1000 false).2.1
      (Button_Double_Pressed HandlerState.init Button_Init 1000 false).2.2
      1100 false).1 = false :=
  c7_one_shot_flags HandlerState.init Button_Init 1100 1000 false false
    (by decide) (by decide) (by decide)

/-- Exact characterisation of when one handler call raises
`_long_press_event`: only an accepted (unsuppressed) pressed→released
transition with inclusive long duration. -/
theorem irq_long_flag_char (g : HandlerState) (b : ButtonState) (now : Nat)
    (raw : Bool) :
    (Button_IRQ_Handler g b now raw).2._long_press_event =
      (b._long_press_event ||
        (!decide (g.ignore_until > now) && (raw && !b._state) &&
          decide (wsub now g.press_start_time ≥ LONG_PRESS_DURATION))) := by
  by_cases hsup : g.ignore_until > now
  · rw [irq_suppressed g b now raw hsup]
    simp [hsup]
  · cases hraw : raw <;> cases hst : b._state
    · rw [irq_no_change g b now false hsup (by rw [hst])]
      simp [hsup]
    · rw [irq_press g b now hsup hst]
      simp [hsup]
    · by_cases hl : wsub now g.press_start_time ≥ LONG_PRESS_DURATION
      · rw [irq_release_long g b now hsup hst hl]
        simp [hsup, hl]
      · by_cases hs : wsub now g.press_start_time < DOUBLE_PRESS_WINDOW
        · rw [irq_release_short g b now hsup hst hs]
          simp [hsup, hl]
        · rw [irq_release_mid g b now hsup hst hl hs]
          simp [hsup, hl]
    · rw [irq_no_change g b now true hsup (by rw [hst])]
      simp [hsup, hst]

/-- Exact characterisation of when one handler call raises
`_double_press_event`: only an accepted pressed→released transition with
short duration and a short start-to-start interval. -/
theorem irq_double_flag_char (g : HandlerState) (b : ButtonState)
    (now : Nat) (raw : Bool) :
    (Button_IRQ_Handler g b now raw).2._double_press_event =
      (b._double_press_event ||
        (!decide (g.ignore_until > now) && (raw && !b._state) &&
          decide (wsub now g.press_start_time < DOUBLE_PRESS_WINDOW) &&
          decide (wsub g.press_start_time g.last_press_time <
            DOUBLE_PRESS_WINDOW))) := by
  by_cases hsup : g.ignore_until > now
  · rw [irq_suppressed g b now raw hsup]
    simp [hsup]
  · cases hraw : raw <;> cases hst : b._state
    · rw [irq_no_change g b now false hsup (by rw [hst])]
      simp [hsup]
    · rw [irq_press g b now hsup hst]
      simp [hsup]
    · by_cases hs : wsub now g.press_start_time < DOUBLE_PRESS_WINDOW
      · rw [irq_release_short g b now hsup hst hs]
        simp [hsup, hs]
      · by_cases hl : wsub now g.press_start_time ≥ LONG_PRESS_DURATION
        · rw [irq_release_long g b now hsup hst hl]
          simp [hsup, hs]
        · rw [irq_release_mid g b now hsup hst hl hs]
          simp [hsup, hs]
    · rw [irq_no_change g b now true hsup (by rw [hst])]
      simp [hsup, hst]

/-- C8: in any state, `_long_press_event` and `_double_press_event` go
from unset to set only inside an update call that accepts a settled
pressed→released transition: the handler raises each flag exactly on an
unsuppressed call with `raw = SET` differing from the settled pressed
level and the respective duration condition; the consuming accessors
never raise either flag (they only clear their own and pass the other
through unchanged from the embedded update); a fresh button starts with
both flags unset. -/
theorem c8_flags_only_on_release (g : HandlerState) (b : ButtonState)
    (now : Nat) (raw : Bool) :
    ((Button_IRQ_Handler g b now raw).2._long_press_event =
      (b._long_press_event ||
        (!decide (g.ignore_until > now) && (raw && !b._state) &&
          decide (wsub now g.press_start_time ≥ LONG_PRESS_DURATION)))) ∧
    ((Button_IRQ_Handler g b now raw).2._double_press_event =
      (b._double_press_event ||
        (!decide (g.ignore_until > now) && (raw && !b._state) &&
          decide (wsub now g.press_start_time < DOUBLE_PRESS_WINDOW) &&
          decide (wsub g.press_start_time g.last_press_time <
            DOUBLE_PRESS_WINDOW)))) ∧
    (Button_Pressed g b now raw).2.2._long_press_event =
      (Button_IRQ_Handler g b now raw).2._long_press_event ∧
    (Button_Pressed g b now raw).2.2._double_press_event =
      (Button_IRQ_Handler g b now raw).2._double_press_event ∧
    (Button_Long_Pressed g b now raw).2.2._long_press_event = false ∧
    (Button_Long_Pressed g b now raw).2.2._double_press_event =
      (Button_IRQ_Handler g b now raw).2._double_press_event ∧
    (Button_Double_Pressed g b now raw).2.2._double_press_event = false ∧
    (Button_Double_Pressed g b now raw).2.2._long_press_event =
      (Button_IRQ_Handler g b now raw).2._long_press_event ∧
    Button_Init._long_press_event = false ∧
    Button_Init._double_press_event = false := by
  refine ⟨irq_long_flag_char g b now raw, irq_double_flag_char g b now raw,
    ?_, ?_, long_clears_flag g b now raw, ?_,
    double_clears_flag g b now raw, ?_, rfl, rfl⟩
  · simp only [Button_Pressed, Button_Has_Changed, Button_Read]
    cases h : (Button_IRQ_Handler g b now raw).2._has_changed <;> simp [h]
  · simp only [Button_Pressed, Button_Has_Changed, Button_Read]
    cases h : (Button_IRQ_Handler g b now raw).2._has_changed <;> simp [h]
  · simp only [Button_Long_Pressed]
    cases h : (Button_IRQ_Handler g b now raw).2._long_press_event <;>
      simp [h]
  · simp only [Button_Double_Pressed]
    cases h : (Button_IRQ_Handler g b now raw).2._double_press_event <;>
      simp [h]
